import Mathlib

/-!
Shallow embedding of `src/framework/py/flwr/client/rest_client/connection.py`,
the REST request-response channel of a Flower client.

The module holds one piece of shared mutable state (the optional registered
`Node`), a heartbeat sender, a retry invoker with a mutable attempt budget,
and closures `create_node`, `delete_node`, `receive`, `send`,
`send_node_heartbeat`, `get_run`, `get_fab`, all funnelling HTTP traffic
through the `_request` helper.

Modelling choices:
- mutable state becomes a `ConnState` record threaded explicitly;
- each network round trip is represented by its outcome, supplied as an
  explicit argument (an `Option response` for the result of `_request`, or a
  `ReqOutcome` when the connection-error path matters);
- observable side effects (starting/stopping the heartbeat sender, issuing a
  request with or without the retry policy, clearing the identity, setting
  the retry budget, logging an error) are recorded in an `Event` trace;
- a Python function that can raise returns a `PyResult`, whose `raised`
  constructor carries the exception kind.
-/

namespace FlwrRest

/-- API path constants from the source (lines 82-91). -/
def PATH_CREATE_NODE : String := "api/v0/fleet/create-node"

def PATH_DELETE_NODE : String := "api/v0/fleet/delete-node"

def PATH_PULL_MESSAGES : String := "/api/v0/fleet/pull-messages"

def PATH_PUSH_MESSAGES : String := "/api/v0/fleet/push-messages"

def PATH_PULL_OBJECT : String := "/api/v0/fleet/pull-object"

def PATH_PUSH_OBJECT : String := "/api/v0/fleet/push-object"

def PATH_SEND_NODE_HEARTBEAT : String := "api/v0/fleet/send-node-heartbeat"

def PATH_GET_RUN : String := "/api/v0/fleet/get-run"

def PATH_GET_FAB : String := "/api/v0/fleet/get-fab"

def PATH_CONFIRM_MESSAGE_RECEIVED : String := "/api/v0/fleet/confirm-message-received"

/-- A coordinator-assigned node identity (proto `Node`). -/
structure Node where
  node_id : Nat
deriving DecidableEq, Repr

/-- Result of running a Python function: either a value or a raised exception,
tagged by the exception kind. -/
inductive PyResult (α : Type) where
  | ok (val : α)
  | raised (exc : String)
deriving DecidableEq, Repr

/-- Observable side effects of the connection functions, in program order. -/
inductive Event where
  | hbStart
  | hbStop
  | request (path : String) (retry : Bool)
  | clearIdentity
  | setMaxTries (n : Nat)
  | logError (msg : String)
deriving DecidableEq, Repr

/-- The shared mutable state of the context manager: the optional registered
node, whether the heartbeat sender is running, and the retry invoker budget
(`retry_invoker.max_tries`). -/
structure ConnState where
  node : Option Node
  hbRunning : Bool
  maxTries : Nat
deriving DecidableEq, Repr

/-- Outcome of one `_request` round trip including the transport-raise path:
the connection raised after exhausting retries, or the helper returned `None`
(bad status or headers), or it returned a parsed response. -/
inductive ReqOutcome (α : Type) where
  | connError
  | noResponse
  | response (res : α)
deriving DecidableEq, Repr

/-- An HTTP response as seen by `_request`: status code, headers, raw body
bytes. The `requests` library exposes headers through a case-insensitive
mapping; we model the already-normalised view as an association list. -/
structure HttpResponse where
  status_code : Nat
  headers : List (String × String)
  content : List Nat
deriving Repr

/-- Lookup of a header by name, the counterpart of
`res.headers["content-type"]` on the normalised view. -/
def headerLookup (hs : List (String × String)) (key : String) : Option String :=
  (hs.find? (fun p => p.1 = key)).map (fun p => p.2)

/-- The `_request` helper (source lines 185-230). It posts the serialized
request, through `retry_invoker.invoke` when `retry` is true and directly
otherwise, then checks the response: a status code other than 200, a missing
content-type header, or a content-type other than `application/protobuf`
each yield `none`; otherwise the body is parsed into the response type.
`parse` stands for protobuf deserialization (wire encoding is external). -/
def request_helper {α : Type} (parse : List Nat → α)
    (invoke : (Unit → HttpResponse) → HttpResponse)
    (post : Unit → HttpResponse) (retry : Bool) : Option α :=
  let res := if retry then invoke post else post ()
  if res.status_code ≠ 200 then none
  else
    match headerLookup res.headers "content-type" with
    | none => none
    | some ct => if ct ≠ "application/protobuf" then none else some (parse res.content)

/-- Proto `CreateNodeResponse`: carries the assigned node. -/
structure CreateNodeResponse where
  node : Node
deriving DecidableEq, Repr

/-- Proto `DeleteNodeResponse`: an empty acknowledgement. -/
structure DeleteNodeResponse where
  ack : Unit
deriving DecidableEq, Repr

/-- Proto `SendNodeHeartbeatResponse`: a success flag. -/
structure SendNodeHeartbeatResponse where
  success : Bool
deriving DecidableEq, Repr

/-- `create_node` (source lines 260-273): sends a `CreateNodeRequest` through
`_request`; on `None` returns `None` leaving the state untouched; otherwise
stores the assigned node, starts the heartbeat sender and returns the node
id. `out` is the outcome of the `_request` call. -/
def create_node (out : Option CreateNodeResponse) (st : ConnState) :
    ConnState × List Event × Option Nat :=
  match out with
  | none => (st, [Event.request PATH_CREATE_NODE true], none)
  | some r =>
      ({ st with node := some r.node, hbRunning := true },
       [Event.request PATH_CREATE_NODE true, Event.hbStart],
       some r.node.node_id)

/-- `delete_node` (source lines 275-294): with no active node, logs and
no-ops. Otherwise stops the heartbeat sender, sends a `DeleteNodeRequest`
(with the retry policy), and only when that request returns a response
clears the stored node; on `None` it returns early with the node still set.
A transport connection error raised out of `_request` propagates (third
component of the result). -/
def delete_node (out : ReqOutcome DeleteNodeResponse) (st : ConnState) :
    ConnState × List Event × Option String :=
  match st.node with
  | none => (st, [Event.logError "Node instance missing"], none)
  | some _ =>
      let st1 := { st with hbRunning := false }
      match out with
      | ReqOutcome.connError =>
          (st1, [Event.hbStop, Event.request PATH_DELETE_NODE true],
           some "ConnectionError")
      | ReqOutcome.noResponse =>
          (st1, [Event.hbStop, Event.request PATH_DELETE_NODE true], none)
      | ReqOutcome.response _ =>
          ({ st1 with node := none },
           [Event.hbStop, Event.request PATH_DELETE_NODE true,
            Event.clearIdentity],
           none)

/-- `send_node_heartbeat` (source lines 232-258): with no node, logs and
returns false. Otherwise issues exactly one `_request` with `retry=False`;
a `None` response yields false; a response with `success = False` raises a
`RuntimeError`; a successful response yields true. -/
def send_node_heartbeat (out : Option SendNodeHeartbeatResponse)
    (st : ConnState) : List Event × PyResult Bool :=
  match st.node with
  | none => ([Event.logError "Node instance missing"], PyResult.ok false)
  | some _ =>
      let ev := [Event.request PATH_SEND_NODE_HEARTBEAT false]
      match out with
      | none => (ev, PyResult.ok false)
      | some r =>
          if r.success then (ev, PyResult.ok true)
          else
            (ev, PyResult.raised
              "RuntimeError: Heartbeat failed unexpectedly. The SuperLink does not recognize this SuperNode.")

/-- Metadata of a proto message: its own id, the run id and the declared
destination node id. -/
structure Metadata where
  message_id : String
  run_id : Nat
  dst_node_id : Nat
deriving DecidableEq, Repr

/-- A proto `Message` envelope as it appears in `PullMessagesResponse`. -/
structure MessageProto where
  metadata : Metadata
deriving DecidableEq, Repr

/-- Proto `ObjectTree`: an object id and the trees of its children. -/
inductive ObjectTree where
  | mk (object_id : String) (children : List ObjectTree)
deriving Repr

mutual

/-- Modelled from the spec: `iterate_object_tree` lives in
`flwr.common.inflatable`, outside `src/`. Per the spec the pull path visits
every id reachable from the root tree; the order of visitation is
unconstrained, and we fix a child-first order. -/
def ObjectTree.objectIds : ObjectTree → List String
  | ObjectTree.mk oid children => ObjectTree.objectIdsOfList children ++ [oid]

/-- The ids of a list of trees, in order (helper of
`ObjectTree.objectIds`). -/
def ObjectTree.objectIdsOfList : List ObjectTree → List String
  | [] => []
  | t :: ts => ObjectTree.objectIds t ++ ObjectTree.objectIdsOfList ts

end

/-- Proto `PullMessagesResponse`: a list of message envelopes and a parallel
list of object trees. -/
structure PullMessagesResponse where
  messages_list : List MessageProto
  message_object_trees : List ObjectTree
deriving Repr

/-- A reconstructed in-memory message: its id, its object id (content hash)
and the chunk contents keyed by chunk id. -/
structure Message where
  message_id : String
  object_id : String
  chunks : List (String × List Nat)
deriving DecidableEq, Repr

/-- Modelled from the spec: `inflate_object_from_contents` lives in
`flwr.common.inflatable_utils`, outside `src/`. It reconstructs the full
message from the resolved chunk contents, keyed by chunk id, with the
message id as the root; `receive` afterwards injects the message id into the
metadata (source line 366). -/
def inflate_object_from_contents (root_id : String)
    (contents : List (String × List Nat)) : Message :=
  { message_id := root_id, object_id := root_id, chunks := contents }

/-- Modelled from the spec: `pull_objects` lives in
`flwr.common.inflatable_utils`, outside `src/`. Per the spec it visits every
id exactly once (ids repeated across branches are resolved once), invoking
the fetch capability; a failed fetch for any id is fatal for the whole pull.
Failure surfaces as a raised `ValueError`, because the injected fetch
function raises `ValueError` when its pull-object `_request` returns `None`
(source lines 328-334). -/
def pull_objects (ids : List String) (fetch : String → Option (List Nat)) :
    Except String (List (String × List Nat)) :=
  let uniq := ids.dedup
  if uniq.all (fun i => (fetch i).isSome) then
    Except.ok (uniq.filterMap (fun i => (fetch i).map (fun b => (i, b))))
  else Except.error "ValueError"

/-- `receive` (source lines 296-368): with no node, logs and returns `None`;
a `None` pull-messages response returns `None`; an empty message list
returns `None`; a message whose destination id differs from the local node
id is discarded as if absent. Otherwise the object tree ids are pulled; the
`except ValueError` clause catches a pull failure and logs, but the
following line reads `all_object_contents`, which was only assigned inside
the `try`, so an `UnboundLocalError` is raised out of `receive`; an absent
object tree raises an uncaught `IndexError`. On a successful pull, the
received-confirmation request is fired and ignored, and the inflated
message is returned. `pullRes` is the outcome of the pull-messages
`_request`; `fetch` gives the per-object-id outcome of the pull-object
requests. -/
def receive (pullRes : Option PullMessagesResponse)
    (fetch : String → Option (List Nat)) (st : ConnState) :
    PyResult (Option Message) :=
  match st.node with
  | none => PyResult.ok none
  | some n =>
      match pullRes with
      | none => PyResult.ok none
      | some res =>
          let mp0 := res.messages_list.head?
          let mp1 := match mp0 with
            | some mp =>
                if mp.metadata.dst_node_id = n.node_id then some mp else none
            | none => none
          match mp1 with
          | none => PyResult.ok none
          | some mp =>
              match res.message_object_trees.head? with
              | none => PyResult.raised "IndexError"
              | some tree =>
                  match pull_objects tree.objectIds fetch with
                  | Except.error _ => PyResult.raised "UnboundLocalError"
                  | Except.ok contents =>
                      PyResult.ok
                        (some (inflate_object_from_contents
                          mp.metadata.message_id contents))

/-- Proto `PushMessagesResponse`: the map field `objects_to_push`, from a
message object id to the list of object ids the coordinator still lacks for
that message, modelled as an association list. -/
structure PushMessagesResponse where
  objects_to_push : List (String × List String)
deriving DecidableEq, Repr

/-- Access into a protobuf message-valued map: a missing key yields a
default (empty) entry, as `res.objects_to_push[message.object_id]` does. -/
def mapAccess (m : List (String × List String)) (k : String) : List String :=
  match m.find? (fun p => p.1 = k) with
  | some p => p.2
  | none => []

/-- Modelled from the spec: `push_objects` lives in
`flwr.common.inflatable_utils`, outside `src/`. Given the explicit set of
missing ids, it invokes the store capability for each; a failed store is
recorded and skipped, and the remaining ids are still attempted. Returns
the ids whose store succeeded. -/
def push_objects (ids_to_push : List String) (store : String → Bool) :
    List String :=
  ids_to_push.filter store

/-- `send` (source lines 370-431): with no node, logs and no-ops. Otherwise
the message content and object tree are computed in a frozen-id scope, the
deflated envelope plus tree are pushed with `_request`; when that yields a
response and the `objects_to_push` map is non-empty, the set of ids the
response declares missing for the object id of the message is passed to the
push path. Returns the deduplicated list of object ids handed to
`push_objects` (empty when no push path is entered). `pushRes` is the
outcome of the push-messages `_request`. -/
def send (pushRes : Option PushMessagesResponse) (st : ConnState)
    (message : Message) : List String :=
  match st.node with
  | none => []
  | some _ =>
      match pushRes with
      | none => []
      | some res =>
          if res.objects_to_push.isEmpty then []
          else (mapAccess res.objects_to_push message.object_id).dedup

/-- A `Run` metadata value (`flwr.common.typing.Run`), reduced to its id and
bundle coordinates. -/
structure Run where
  run_id : Nat
  fab_id : String
  fab_version : String
  fab_hash : String
deriving DecidableEq, Repr

/-- Modelled from the spec: `Run.create_empty` lives in
`flwr.common.typing`, outside `src/`. It is the empty `Run` sentinel
carrying the requested run id, every other field empty. -/
def Run.create_empty (run_id : Nat) : Run :=
  { run_id := run_id, fab_id := "", fab_version := "", fab_hash := "" }

/-- A `Fab` bundle value (`flwr.common.typing.Fab`): content hash and raw
bytes. -/
structure Fab where
  hash_str : String
  content : List Nat
deriving DecidableEq, Repr

/-- Proto `GetRunResponse` carrying the run (proto decoding is external and
elided). -/
structure GetRunResponse where
  run : Run
deriving DecidableEq, Repr

/-- Proto `GetFabResponse` carrying the bundle. -/
structure GetFabResponse where
  fab : Fab
deriving DecidableEq, Repr

/-- `get_run` (source lines 434-443): a `None` response yields
`Run.create_empty(run_id)`; otherwise the decoded run. -/
def get_run (out : Option GetRunResponse) (run_id : Nat) : Run :=
  match out with
  | none => Run.create_empty run_id
  | some res => res.run

/-- `get_fab` (source lines 445-457): a `None` response yields a `Fab` with
empty hash and empty content; otherwise the response bundle. -/
def get_fab (out : Option GetFabResponse) (fab_hash : String)
    (run_id : Nat) : Fab :=
  let _req := (fab_hash, run_id)
  match out with
  | none => { hash_str := "", content := [] }
  | some res => { hash_str := res.fab.hash_str, content := res.fab.content }

/-- The `root_certificates` argument: absent, a string path, or raw bytes. -/
inductive RootCertificates where
  | absent
  | path (p : String)
  | bytes (b : List Nat)
deriving DecidableEq, Repr

/-- The `verify` value handed to `requests.post`: a boolean or a certificate
path (`Union[bool, str]`). -/
inductive VerifySetting where
  | flag (b : Bool)
  | certPath (p : String)
deriving DecidableEq, Repr

/-- The configuration part of `http_request_response` (source lines
162-176): `verify` starts at `True`; a string `root_certificates` becomes
the verify path; bytes are rejected with a logged error, leaving `True`;
supplying `authentication_keys` logs an error. The `insecure` flag is
accepted and ignored. Authentication keys are an opaque pair here, only
their presence matters. -/
def connectionSetup (insecure : Bool) (root_certificates : RootCertificates)
    (authentication_keys : Option (Nat × Nat)) :
    VerifySetting × List Event :=
  let _ := insecure
  let vEv : VerifySetting × List Event :=
    match root_certificates with
    | RootCertificates.absent => (VerifySetting.flag true, [])
    | RootCertificates.path p => (VerifySetting.certPath p, [])
    | RootCertificates.bytes _ =>
        (VerifySetting.flag true,
         [Event.logError
           "For the REST API, the root certificates must be provided as a string path to the client."])
  let ev :=
    if authentication_keys.isSome then
      vEv.2 ++
        [Event.logError
          "Client authentication is not supported for this transport type."]
    else vEv.2
  (vEv.1, ev)

/-- The session scope of `http_request_response` (source lines 459-472):
the yielded body runs; any exception it raises is caught and logged. In the
`finally` block, when a node is registered, `retry_invoker.max_tries` is
set to 1 and `delete_node` is issued; a `RequestsConnectionError` raised by
that teardown is swallowed. `bodyExc` is the exception raised by the body,
if any; `deleteOut` the outcome of the teardown unregister request. Returns
the final state, the trace, and the exception escaping the scope. -/
def sessionScope (bodyExc : Option String)
    (deleteOut : ReqOutcome DeleteNodeResponse) (st : ConnState) :
    ConnState × List Event × Option String :=
  let bodyEv : List Event :=
    match bodyExc with
    | some e => [Event.logError e]
    | none => []
  match st.node with
  | none => (st, bodyEv, none)
  | some _ =>
      let st1 := { st with maxTries := 1 }
      let r := delete_node deleteOut st1
      let escaped : Option String :=
        match r.2.2 with
        | some "ConnectionError" => none
        | other => other
      (r.1, bodyEv ++ Event.setMaxTries 1 :: r.2.1, escaped)

/-- C1 counterexample: calling `delete_node` with an active session (node id
7) while the unregister request returns no response leaves the stored
identity in place, refuting the claim that the identity is absent after
`delete_node` returns regardless of the unregister outcome. -/
theorem delete_node_noResponse_keeps_identity :
    (delete_node ReqOutcome.noResponse
        { node := some { node_id := 7 }, hbRunning := true, maxTries := 3 }).1.node =
      some { node_id := 7 } ∧
    (delete_node ReqOutcome.noResponse
        { node := some { node_id := 7 }, hbRunning := true, maxTries := 3 }).1.node ≠
      none := by
  refine ⟨rfl, ?_⟩
  decide

/-- C1 (amended): for every call to `delete_node` with an active session,
the heartbeat is stopped first, then the unregister request is sent; the
identity is cleared exactly when the unregister request returns a response,
and is left stored when it returns no response or the transport raises. -/
theorem delete_node_amended (out : ReqOutcome DeleteNodeResponse)
    (st : ConnState) (n : Node) (h : st.node = some n) :
    (delete_node out st).1.hbRunning = false ∧
    (∃ tail, (delete_node out st).2.1 =
      Event.hbStop :: Event.request PATH_DELETE_NODE true :: tail) ∧
    ((delete_node out st).1.node = none ↔
      ∃ res : DeleteNodeResponse, out = ReqOutcome.response res) := by
  cases out <;> simp [delete_node, h]

/-- C1 witness: the amended theorem applied at a concrete session with node
id 7 and a successful unregister response. -/
theorem delete_node_amended_witness :
    ((delete_node (ReqOutcome.response { ack := () })
        { node := some { node_id := 7 }, hbRunning := true, maxTries := 3 }).1.hbRunning =
      false ∧
    (∃ tail, (delete_node (ReqOutcome.response { ack := () })
        { node := some { node_id := 7 }, hbRunning := true, maxTries := 3 }).2.1 =
      Event.hbStop :: Event.request PATH_DELETE_NODE true :: tail) ∧
    ((delete_node (ReqOutcome.response { ack := () })
        { node := some { node_id := 7 }, hbRunning := true, maxTries := 3 }).1.node =
        none ↔
      ∃ res : DeleteNodeResponse,
        ReqOutcome.response { ack := () } = ReqOutcome.response res)) :=
  delete_node_amended (ReqOutcome.response { ack := () })
    { node := some { node_id := 7 }, hbRunning := true, maxTries := 3 }
    { node_id := 7 } rfl

/-- C2 (code bug): with an active session (node id 7), a pending message
addressed to node 7 whose tree references chunk ids, and every pull-object
request returning no response, `receive` raises `UnboundLocalError` into
the caller: the `except ValueError` clause logs the pull failure but the
next line reads `all_object_contents`, assigned only inside the `try`. -/
theorem receive_pull_failure_raises :
    receive
      (some { messages_list :=
                [{ metadata :=
                    { message_id := "msg", run_id := 5, dst_node_id := 7 } }],
              message_object_trees :=
                [ObjectTree.mk "msg" [ObjectTree.mk "chunkA" []]] })
      (fun _ => none)
      { node := some { node_id := 7 }, hbRunning := true, maxTries := 3 } =
    PyResult.raised "UnboundLocalError" := rfl

/-- C3: `receive` returns an absent result without raising when there is no
active session, when the coordinator returns an empty message list, and
when the single returned message declares a destination node id differing
from the locally stored one; the mismatch case yields the same result as an
empty queue. -/
theorem receive_absent_cases (pullRes : Option PullMessagesResponse)
    (fetch : String → Option (List Nat)) (st : ConnState) :
    (st.node = none → receive pullRes fetch st = PyResult.ok none) ∧
    (∀ res : PullMessagesResponse, pullRes = some res →
      res.messages_list = [] → receive pullRes fetch st = PyResult.ok none) ∧
    (∀ (n : Node) (res : PullMessagesResponse) (mp : MessageProto),
      st.node = some n → pullRes = some res →
      res.messages_list.head? = some mp →
      mp.metadata.dst_node_id ≠ n.node_id →
      receive pullRes fetch st = PyResult.ok none) := by
  refine ⟨fun h => by simp [receive, h], ?_, ?_⟩
  · intro res hres hempty
    cases hst : st.node with
    | none => simp [receive, hst]
    | some n => subst hres; simp [receive, hst, hempty]
  · intro n res mp hst hres hmp hneq
    subst hres
    simp [receive, hst, hmp, hneq]

/-- C3 witness: the three absent cases at concrete inputs — no session, an
empty message list, and a message addressed to node 8 received by node 7. -/
theorem receive_absent_cases_witness :
    receive none (fun _ => none)
      { node := none, hbRunning := false, maxTries := 3 } = PyResult.ok none ∧
    receive (some { messages_list := [], message_object_trees := [] })
      (fun _ => none)
      { node := some { node_id := 7 }, hbRunning := true, maxTries := 3 } =
      PyResult.ok none ∧
    receive
      (some { messages_list :=
                [{ metadata :=
                    { message_id := "msg", run_id := 5, dst_node_id := 8 } }],
              message_object_trees := [ObjectTree.mk "msg" []] })
      (fun _ => none)
      { node := some { node_id := 7 }, hbRunning := true, maxTries := 3 } =
      PyResult.ok none :=
  ⟨(receive_absent_cases none (fun _ => none)
      { node := none, hbRunning := false, maxTries := 3 }).1 rfl,
   (receive_absent_cases
      (some { messages_list := [], message_object_trees := [] })
      (fun _ => none)
      { node := some { node_id := 7 }, hbRunning := true, maxTries := 3 }).2.1
     { messages_list := [], message_object_trees := [] } rfl rfl,
   (receive_absent_cases
      (some { messages_list :=
                [{ metadata :=
                    { message_id := "msg", run_id := 5, dst_node_id := 8 } }],
              message_object_trees := [ObjectTree.mk "msg" []] })
      (fun _ => none)
      { node := some { node_id := 7 }, hbRunning := true, maxTries := 3 }).2.2
     { node_id := 7 }
     { messages_list :=
        [{ metadata := { message_id := "msg", run_id := 5, dst_node_id := 8 } }],
       message_object_trees := [ObjectTree.mk "msg" []] }
     { metadata := { message_id := "msg", run_id := 5, dst_node_id := 8 } }
     rfl rfl rfl (by decide)⟩

/-- C4: `create_node` on a successful registration stores the assigned
identity, starts the heartbeat sender and returns the assigned node id; on
no response it returns an absent result, leaves the state untouched and
never starts the heartbeat sender. -/
theorem create_node_lifecycle (st : ConnState) :
    ((create_node none st).1 = st ∧ (create_node none st).2.2 = none ∧
      Event.hbStart ∉ (create_node none st).2.1) ∧
    (∀ r : CreateNodeResponse,
      (create_node (some r) st).1.node = some r.node ∧
      (create_node (some r) st).1.hbRunning = true ∧
      (create_node (some r) st).2.2 = some r.node.node_id ∧
      Event.hbStart ∈ (create_node (some r) st).2.1) := by
  refine ⟨⟨rfl, rfl, by simp [create_node]⟩, fun r => ⟨rfl, rfl, rfl, by simp [create_node]⟩⟩

/-- C5: with an active session, the heartbeat probe issues exactly one
request, with the retry policy disabled; no response yields a non-fatal
false, a response with a false success flag raises a fatal error, and a
successful response yields true. -/
theorem send_node_heartbeat_single_shot
    (out : Option SendNodeHeartbeatResponse) (st : ConnState) (n : Node)
    (h : st.node = some n) :
    (send_node_heartbeat out st).1 =
      [Event.request PATH_SEND_NODE_HEARTBEAT false] ∧
    (out = none → (send_node_heartbeat out st).2 = PyResult.ok false) ∧
    (∀ resp : SendNodeHeartbeatResponse, out = some resp →
      resp.success = false →
      ∃ e, (send_node_heartbeat out st).2 = PyResult.raised e) ∧
    (∀ resp : SendNodeHeartbeatResponse, out = some resp →
      resp.success = true → (send_node_heartbeat out st).2 = PyResult.ok true) := by
  cases out with
  | none => simp [send_node_heartbeat, h]
  | some r =>
      cases hr : r.success <;>
        simp [send_node_heartbeat, h, hr]

/-- C5 witness: the probe at node id 7 with a rejecting response (success
false) raises, and the single request event carries the no-retry flag. -/
theorem send_node_heartbeat_single_shot_witness :
    (send_node_heartbeat (some { success := false })
        { node := some { node_id := 7 }, hbRunning := true, maxTries := 3 }).1 =
      [Event.request PATH_SEND_NODE_HEARTBEAT false] ∧
    ((some { success := false } : Option SendNodeHeartbeatResponse) = none →
      (send_node_heartbeat (some { success := false })
        { node := some { node_id := 7 }, hbRunning := true, maxTries := 3 }).2 =
        PyResult.ok false) ∧
    (∀ resp : SendNodeHeartbeatResponse,
      (some { success := false } : Option SendNodeHeartbeatResponse) = some resp →
      resp.success = false →
      ∃ e, (send_node_heartbeat (some { success := false })
        { node := some { node_id := 7 }, hbRunning := true, maxTries := 3 }).2 =
          PyResult.raised e) ∧
    (∀ resp : SendNodeHeartbeatResponse,
      (some { success := false } : Option SendNodeHeartbeatResponse) = some resp →
      resp.success = true →
      (send_node_heartbeat (some { success := false })
        { node := some { node_id := 7 }, hbRunning := true, maxTries := 3 }).2 =
        PyResult.ok true) :=
  send_node_heartbeat_single_shot (some { success := false })
    { node := some { node_id := 7 }, hbRunning := true, maxTries := 3 }
    { node_id := 7 } rfl

/-- C6: for every request through the shared helper, whatever the retry
policy produced as the final response, a non-200 status, a missing
content-type header, and a content-type differing from the protobuf marker
all yield the identical absent result `none`; only a 200 status with the
exact protobuf content-type yields a parsed response. -/
theorem request_helper_response_filtering {α : Type} (parse : List Nat → α)
    (invoke : (Unit → HttpResponse) → HttpResponse)
    (post : Unit → HttpResponse) (retry : Bool) (res : HttpResponse)
    (hres : (if retry then invoke post else post ()) = res) :
    (res.status_code ≠ 200 → request_helper parse invoke post retry = none) ∧
    (headerLookup res.headers "content-type" = none →
      request_helper parse invoke post retry = none) ∧
    (∀ ct : String, headerLookup res.headers "content-type" = some ct →
      ct ≠ "application/protobuf" →
      request_helper parse invoke post retry = none) ∧
    (res.status_code = 200 →
      headerLookup res.headers "content-type" = some "application/protobuf" →
      request_helper parse invoke post retry = some (parse res.content)) := by
  unfold request_helper
  rw [hres]
  refine ⟨fun h => by simp [h], fun h => by simp [h], ?_, fun h hct => by simp [h, hct]⟩
  intro ct hct hne
  rcases eq_or_ne res.status_code 200 with h200 | h200
  · simp [h200, hct, hne]
  · simp [h200]

/-- C6 witness: the helper applied to a concrete transport returning status
404, discharging the non-success branch; the identity invoke shows the
result is independent of the retry path taken. -/
theorem request_helper_response_filtering_witness :
    ((HttpResponse.mk 404 [] []).status_code ≠ 200 →
      request_helper (fun _ => 0) (fun p => p ())
        (fun _ => HttpResponse.mk 404 [] []) true = none) ∧
    (headerLookup (HttpResponse.mk 404 [] []).headers "content-type" = none →
      request_helper (fun _ => 0) (fun p => p ())
        (fun _ => HttpResponse.mk 404 [] []) true = none) ∧
    (∀ ct : String,
      headerLookup (HttpResponse.mk 404 [] []).headers "content-type" = some ct →
      ct ≠ "application/protobuf" →
      request_helper (fun _ => 0) (fun p => p ())
        (fun _ => HttpResponse.mk 404 [] []) true = none) ∧
    ((HttpResponse.mk 404 [] []).status_code = 200 →
      headerLookup (HttpResponse.mk 404 [] []).headers "content-type" =
        some "application/protobuf" →
      request_helper (fun _ => 0) (fun p => p ())
        (fun _ => HttpResponse.mk 404 [] []) true =
        some ((fun _ => 0) (HttpResponse.mk 404 [] []).content)) :=
  request_helper_response_filtering (fun _ => 0) (fun p => p ())
    (fun _ => HttpResponse.mk 404 [] []) true (HttpResponse.mk 404 [] []) rfl

/-- C7: for every combination of the insecure flag, root certificates
(absent, path, or bytes) and authentication keys, the verify setting handed
to the transport is `True` or a certificate path and never `False`, and
supplying authentication keys logs a rejection error. -/
theorem connection_verify_always_enforced (insecure : Bool)
    (root_certificates : RootCertificates)
    (authentication_keys : Option (Nat × Nat)) :
    (connectionSetup insecure root_certificates authentication_keys).1 ≠
      VerifySetting.flag false ∧
    ((connectionSetup insecure root_certificates authentication_keys).1 =
        VerifySetting.flag true ∨
      ∃ p : String,
        (connectionSetup insecure root_certificates authentication_keys).1 =
          VerifySetting.certPath p) ∧
    (authentication_keys.isSome →
      Event.logError
          "Client authentication is not supported for this transport type." ∈
        (connectionSetup insecure root_certificates authentication_keys).2) := by
  cases root_certificates <;>
    cases authentication_keys <;>
      simp [connectionSetup]

/-- C7 witness: the invariant applied to the configuration with bytes root
certificates and authentication keys supplied. -/
theorem connection_verify_always_enforced_witness :
    (connectionSetup false (RootCertificates.bytes [1]) (some (1, 2))).1 ≠
      VerifySetting.flag false ∧
    ((connectionSetup false (RootCertificates.bytes [1]) (some (1, 2))).1 =
        VerifySetting.flag true ∨
      ∃ p : String,
        (connectionSetup false (RootCertificates.bytes [1]) (some (1, 2))).1 =
          VerifySetting.certPath p) ∧
    ((some (1, 2) : Option (Nat × Nat)).isSome →
      Event.logError
          "Client authentication is not supported for this transport type." ∈
        (connectionSetup false (RootCertificates.bytes [1]) (some (1, 2))).2) :=
  connection_verify_always_enforced false (RootCertificates.bytes [1]) (some (1, 2))

/-- C8: with an active session and a successful push-messages request, the
object ids passed to the push path are exactly those the response declares
missing for the object id of the message; a `None` response, and a response
declaring nothing missing, lead to no upload at all. -/
theorem send_pushes_exactly_declared_missing
    (pushRes : Option PushMessagesResponse) (st : ConnState)
    (message : Message) :
    (pushRes = none → send pushRes st message = []) ∧
    (∀ (n : Node) (res : PushMessagesResponse), st.node = some n →
      pushRes = some res → res.objects_to_push = [] →
      send pushRes st message = []) ∧
    (∀ (n : Node) (res : PushMessagesResponse), st.node = some n →
      pushRes = some res →
      ∀ oid : String, oid ∈ send pushRes st message ↔
        oid ∈ mapAccess res.objects_to_push message.object_id) := by
  refine ⟨?_, ?_, ?_⟩
  · intro h; subst h; cases hst : st.node <;> simp [send, hst]
  · intro n res hst hres hempty
    subst hres
    simp [send, hst, hempty]
  · intro n res hst hres oid
    subst hres
    by_cases hempty : res.objects_to_push.isEmpty
    · rw [List.isEmpty_iff] at hempty
      simp [send, hst, hempty, mapAccess]
    · simp [send, hst, hempty, List.mem_dedup]

/-- C8 witness: a coordinator response declaring chunk ids a and b (b
repeated) missing for message object id m leads to exactly a and b being
passed to the push path. -/
theorem send_pushes_exactly_declared_missing_witness :
    ((some { objects_to_push := [("m", ["a", "b", "b"])] } :
        Option PushMessagesResponse) = none →
      send (some { objects_to_push := [("m", ["a", "b", "b"])] })
        { node := some { node_id := 7 }, hbRunning := true, maxTries := 3 }
        { message_id := "m", object_id := "m", chunks := [] } = []) ∧
    (∀ (n : Node) (res : PushMessagesResponse),
      ({ node := some { node_id := 7 }, hbRunning := true,
          maxTries := 3 } : ConnState).node = some n →
      (some { objects_to_push := [("m", ["a", "b", "b"])] } :
        Option PushMessagesResponse) = some res →
      res.objects_to_push = [] →
      send (some { objects_to_push := [("m", ["a", "b", "b"])] })
        { node := some { node_id := 7 }, hbRunning := true, maxTries := 3 }
        { message_id := "m", object_id := "m", chunks := [] } = []) ∧
    (∀ (n : Node) (res : PushMessagesResponse),
      ({ node := some { node_id := 7 }, hbRunning := true,
          maxTries := 3 } : ConnState).node = some n →
      (some { objects_to_push := [("m", ["a", "b", "b"])] } :
        Option PushMessagesResponse) = some res →
      ∀ oid : String,
        oid ∈ send (some { objects_to_push := [("m", ["a", "b", "b"])] })
          { node := some { node_id := 7 }, hbRunning := true, maxTries := 3 }
          { message_id := "m", object_id := "m", chunks := [] } ↔
        oid ∈ mapAccess res.objects_to_push
          ({ message_id := "m", object_id := "m",
             chunks := [] } : Message).object_id) :=
  send_pushes_exactly_declared_missing
    (some { objects_to_push := [("m", ["a", "b", "b"])] })
    { node := some { node_id := 7 }, hbRunning := true, maxTries := 3 }
    { message_id := "m", object_id := "m", chunks := [] }

/-- C9: no exception escapes the session scope — a body exception is caught
and logged; on exit with an active identity the retry budget is set to 1
before the teardown unregister request, and a connection error raised
during that final teardown is swallowed. -/
theorem session_scope_teardown (bodyExc : Option String)
    (deleteOut : ReqOutcome DeleteNodeResponse) (st : ConnState) :
    (sessionScope bodyExc deleteOut st).2.2 = none ∧
    (∀ e : String, bodyExc = some e →
      Event.logError e ∈ (sessionScope bodyExc deleteOut st).2.1) ∧
    (∀ n : Node, st.node = some n →
      (sessionScope bodyExc deleteOut st).1.maxTries = 1 ∧
      ∃ tail, (sessionScope bodyExc deleteOut st).2.1 =
        (match bodyExc with
          | some e => [Event.logError e]
          | none => []) ++
        Event.setMaxTries 1 :: Event.hbStop ::
          Event.request PATH_DELETE_NODE true :: tail) := by
  refine ⟨?_, ?_, ?_⟩
  · cases hst : st.node <;> cases deleteOut <;>
      cases bodyExc <;> simp [sessionScope, delete_node, hst]
  · intro e he
    subst he
    cases hst : st.node <;> cases deleteOut <;>
      simp [sessionScope, delete_node, hst]
  · intro n hst
    cases deleteOut <;> cases bodyExc <;>
      simp [sessionScope, delete_node, hst]

/-- C9 witness: a body exception with an active identity (node id 7) and a
teardown unregister that raises a connection error: nothing escapes, the
exception is logged, and the retry budget is set to 1 before the request. -/
theorem session_scope_teardown_witness :
    (sessionScope (some "boom") ReqOutcome.connError
        { node := some { node_id := 7 }, hbRunning := true, maxTries := 3 }).2.2 =
      none ∧
    (∀ e : String, (some "boom" : Option String) = some e →
      Event.logError e ∈
        (sessionScope (some "boom") ReqOutcome.connError
          { node := some { node_id := 7 }, hbRunning := true, maxTries := 3 }).2.1) ∧
    (∀ n : Node,
      ({ node := some { node_id := 7 }, hbRunning := true,
          maxTries := 3 } : ConnState).node = some n →
      (sessionScope (some "boom") ReqOutcome.connError
          { node := some { node_id := 7 }, hbRunning := true, maxTries := 3 }).1.maxTries =
        1 ∧
      ∃ tail, (sessionScope (some "boom") ReqOutcome.connError
          { node := some { node_id := 7 }, hbRunning := true, maxTries := 3 }).2.1 =
        (match (some "boom" : Option String) with
          | some e => [Event.logError e]
          | none => []) ++
        Event.setMaxTries 1 :: Event.hbStop ::
          Event.request PATH_DELETE_NODE true :: tail) :=
  session_scope_teardown (some "boom") ReqOutcome.connError
    { node := some { node_id := 7 }, hbRunning := true, maxTries := 3 }

/-- C10: a `None` response makes `get_run` return the empty `Run` sentinel
carrying the requested run id and makes `get_fab` return a `Fab` with empty
hash and empty content — never an absent value — and for each there is a
genuine coordinator response producing the identical result, so transport
failure is indistinguishable from empty metadata by the result alone. -/
theorem metadata_fallback_sentinels (run_id : Nat) (fab_hash : String) :
    get_run none run_id = Run.create_empty run_id ∧
    (Run.create_empty run_id).run_id = run_id ∧
    (Run.create_empty run_id).fab_id = "" ∧
    (Run.create_empty run_id).fab_hash = "" ∧
    get_fab none fab_hash run_id = { hash_str := "", content := [] } ∧
    (∃ res : GetRunResponse,
      get_run (some res) run_id = get_run none run_id) ∧
    (∃ res : GetFabResponse,
      get_fab (some res) fab_hash run_id = get_fab none fab_hash run_id) :=
  ⟨rfl, rfl, rfl, rfl, rfl,
   ⟨{ run := Run.create_empty run_id }, rfl⟩,
   ⟨{ fab := { hash_str := "", content := [] } }, rfl⟩⟩

end FlwrRest
